import Mathlib

/-!
Shallow embedding of the fipy term-assembly core, centred on
`fipy/terms/explicitDiffusionTerm.py`, together with the viewer
variable-selection logic of
`fipy/viewers/matplotlibViewer/matplotlib2DViewer.py`.

Field values are modelled over `ℚ`; the coefficient matrix is a
`Matrix (Fin n) (Fin n) ℚ` where `n` is the number of cells of the mesh,
and the right-hand side is a vector `Fin n → ℚ`.

The shared assembly routine `_AbstractDiffusionTerm._buildMatrix` is not
among the sources; the explicit variant is therefore parameterised over an
arbitrary assembly function (carried as the data of the term instance), so
the theorems below quantify over every possible shared assembly.
-/

/-- Mesh geometry provider, indexed by its cell count `n`.  Only the
queries used by the sources are modelled: the face cell-to-cell normals
and the orthogonality flag. -/
structure Mesh (n : ℕ) where
  _faceCellToCellNormals : List (ℚ × ℚ)
  _isOrthogonal : Bool

/-- A field variable on a mesh of `n` cells: current `value`, the optional
old snapshot (`hasattr(var, 'old')` is `old.isSome`), and the owning
mesh. -/
structure CellVariable (n : ℕ) where
  value : Fin n → ℚ
  old : Option (Fin n → ℚ)
  mesh : Mesh n

/-- The `(field, matrix L, vector b)` triple returned by assembly. -/
abbrev AssemblyTriple (n : ℕ) :=
  CellVariable n × Matrix (Fin n) (Fin n) ℚ × (Fin n → ℚ)

/-- Type of the shared assembly routine
`_AbstractDiffusionTerm._buildMatrix`: from a field, boundary conditions
(of an opaque type `γ`), `dt`, `transientGeomCoeff` and
`diffusionGeomCoeff`, produce a `(field, L, b)` triple. -/
abbrev AbstractAssembly (n : ℕ) (γ : Type) :=
  CellVariable n → γ → Option ℚ → Option ℚ → Option ℚ → AssemblyTriple n

/-- An `ExplicitDiffusionTerm` instance.  Its inherited behaviour — the
shared assembly `_AbstractDiffusionTerm._buildMatrix`, determined by the
configured diffusion coefficient — is carried as data, so results hold
for every shared assembly. -/
structure ExplicitDiffusionTerm (n : ℕ) (γ : Type) where
  abstractBuildMatrix : AbstractAssembly n γ

/-- Modelled from the spec: the sparse-container constructor
`SparseMatrix(mesh=...)` is external; §6 specifies "construct a matrix
sized to the mesh's cell count" and "construction of an all-zero matrix of
matching shape", so a freshly constructed matrix is the zero matrix sized
to the mesh's cell count. -/
def SparseMatrixOfMesh (m : Mesh n) : Matrix (Fin n) (Fin n) ℚ := 0

/-- `ExplicitDiffusionTerm._buildMatrix`
(fipy/terms/explicitDiffusionTerm.py lines 69-78): take the old snapshot
if the variable has one (else the variable itself), run the shared
assembly on it, and return `(var, SparseMatrix(mesh=var.mesh),
b - L * var.value)`.  The instance is returned unchanged, modelling that
the method writes no instance state. -/
def ExplicitDiffusionTerm._buildMatrix (self : ExplicitDiffusionTerm n γ)
    (var : CellVariable n) (boundaryConditions : γ)
    (dt transientGeomCoeff diffusionGeomCoeff : Option ℚ) :
    ExplicitDiffusionTerm n γ × AssemblyTriple n :=
  let varOld : CellVariable n :=
    match var.old with
    | some o => { value := o, old := none, mesh := var.mesh }
    | none => var
  let r := self.abstractBuildMatrix varOld boundaryConditions dt
    transientGeomCoeff diffusionGeomCoeff
  (self, (var, SparseMatrixOfMesh var.mesh, r.2.2 - r.2.1.mulVec var.value))

/-- `ExplicitDiffusionTerm._getNormals`
(fipy/terms/explicitDiffusionTerm.py lines 80-81). -/
def ExplicitDiffusionTerm._getNormals (self : ExplicitDiffusionTerm n γ)
    (mesh : Mesh m) : List (ℚ × ℚ) :=
  mesh._faceCellToCellNormals

/-- `ExplicitDiffusionTerm._treatMeshAsOrthogonal`
(fipy/terms/explicitDiffusionTerm.py lines 83-84). -/
def ExplicitDiffusionTerm._treatMeshAsOrthogonal
    (self : ExplicitDiffusionTerm n γ) (mesh : Mesh m) : Bool :=
  mesh._isOrthogonal

/-! Spec-modelled shared assembly for the degenerate-geometry behaviour.
The abstract diffusion term and the coefficient resolver are not among
the sources, so they are modelled from spec §4.1, §4.2 and §7. -/

/-- Assembly failure taxonomy, from spec §7: degenerate geometry carries
the offending face. -/
inductive AssemblyError where
  | degenerateGeometry (face : ℕ) : AssemblyError
deriving DecidableEq

/-- An interior face of a mesh with `n` cells: the two adjacent cells,
the diffusivity Γ on the face, the face area, and the inter-cell
distance `d_AP`. -/
structure SpecFace (n : ℕ) where
  cell1 : Fin n
  cell2 : Fin n
  gamma : ℚ
  area : ℚ
  interCellDistance : ℚ

/-- Modelled from the spec (§4.2 step 2): the matrix contribution of one
face with geometric coefficient `c = Γ_f·A_f/d_AP`: off-diagonal entries
`-c` contributed symmetrically to both owning cells, diagonal entries the
negative sum of the cell's own off-diagonal contributions. -/
def faceCoefficientMatrix (c : ℚ) (a b : Fin n) :
    Matrix (Fin n) (Fin n) ℚ :=
  fun i j =>
    (if i = a ∧ j = b then -c else 0) + (if i = b ∧ j = a then -c else 0)
      + (if i = a ∧ j = a then c else 0) + (if i = b ∧ j = b then c else 0)

/-- Modelled from the spec: the Diffusion Coefficient Resolver (§4.1)
combined with interior-face matrix population (§4.2 step 2).  Faces with
zero inter-cell distance "must fail fast rather than silently producing
infinities" (§4.1, §7 DegenerateGeometry), identifying the offending
face; otherwise each face contributes `Γ_f·A_f/d_AP` coefficients. -/
def resolveAndBuild : List (SpecFace n) → ℕ →
    Except AssemblyError (Matrix (Fin n) (Fin n) ℚ)
  | [], _ => Except.ok 0
  | f :: fs, i =>
    if f.interCellDistance = 0 then
      Except.error (AssemblyError.degenerateGeometry i)
    else
      match resolveAndBuild fs (i + 1) with
      | Except.error e => Except.error e
      | Except.ok L =>
        Except.ok
          (L + faceCoefficientMatrix (f.gamma * f.area / f.interCellDistance)
            f.cell1 f.cell2)

/-- Modelled from the spec: the implicit variant (§4.3) returns the
shared assembly's triple unmodified. -/
def specImplicitAssemble (faces : List (SpecFace n)) (var : CellVariable n) :
    Except AssemblyError (AssemblyTriple n) :=
  match resolveAndBuild faces 0 with
  | Except.error e => Except.error e
  | Except.ok L => Except.ok (var, L, 0)

/-- Modelled from the spec: the explicit variant (§4.4) assembles on the
old snapshot (falling back to current values) and folds the matrix into
the right-hand side, returning a zero matrix. -/
def specExplicitAssemble (faces : List (SpecFace n)) (var : CellVariable n) :
    Except AssemblyError (AssemblyTriple n) :=
  match resolveAndBuild faces 0 with
  | Except.error e => Except.error e
  | Except.ok L => Except.ok (var, 0, 0 - L.mulVec (var.old.getD var.value))

/-! Viewer variable selection,
fipy/viewers/matplotlibViewer/matplotlib2DViewer.py lines 139-148. -/

/-- A variable handed to a viewer: its name, whether it is a
`CellVariable` instance, and whether its mesh is a `Mesh2D` instance. -/
structure ViewerVariable where
  name : String
  isCellVariable : Bool
  meshIsMesh2D : Bool
deriving DecidableEq

/-- The error raised when no displayable variable is found. -/
structure MeshDimensionError where
  message : String
deriving DecidableEq

/-- Modelled from the spec: the base-class filter
`MatplotlibViewer._getSuitableVars` is not among the sources and the spec
treats viewers as out-of-scope collaborators; the base filter passes the
variable list through unchanged. -/
def MatplotlibViewer._getSuitableVars (vars : List ViewerVariable) :
    List ViewerVariable :=
  vars

/-- `Matplotlib2DViewer._getSuitableVars`
(fipy/viewers/matplotlibViewer/matplotlib2DViewer.py lines 139-148):
keep the variables that are `CellVariable`s on a `Mesh2D`, raise
`MeshDimensionError` when none remain, else return the first one only. -/
def Matplotlib2DViewer._getSuitableVars (vars : List ViewerVariable) :
    Except MeshDimensionError (List ViewerVariable) :=
  let suitable := (MatplotlibViewer._getSuitableVars vars).filter
    (fun var => var.meshIsMesh2D && var.isCellVariable)
  match suitable with
  | [] => Except.error { message := "The mesh must be a Mesh2D instance" }
  | v :: _ => Except.ok [v]

/-! Concrete fixtures used for counterexamples and witnesses. -/

/-- A one-cell mesh. -/
def mesh1 : Mesh 1 := ⟨[], true⟩

/-- A term whose shared assembly returns the identity matrix and the
constant right-hand side 3, independent of the field. -/
def termA : ExplicitDiffusionTerm 1 Unit :=
  ⟨fun f _ _ _ _ => (f, 1, fun _ => 3)⟩

/-- A one-cell field with current value 1 and old snapshot 0. -/
def varWithOld : CellVariable 1 := ⟨fun _ => 1, some (fun _ => 0), mesh1⟩

/-- A one-cell field with current value 1 and no old snapshot. -/
def varNoOld : CellVariable 1 := ⟨fun _ => 1, none, mesh1⟩

/-- The old snapshot of `varWithOld` as a field. -/
def oldSnapshotA : CellVariable 1 := ⟨fun _ => 0, none, mesh1⟩

/-- A one-cell field whose old snapshot equals its current value 2. -/
def varOldEq : CellVariable 1 := ⟨fun _ => 2, some (fun _ => 2), mesh1⟩

/-! Claim theorems. -/

/-- C1: the claim says the third component returned by
`ExplicitDiffusionTerm._buildMatrix` is `b - L·oldFieldValues` for the
triple `(oldField, L, b)` produced by the shared assembly on the old
snapshot.  The code (line 78) instead computes `b - L * var.value` with
the *current* values: at a field with current value 1 and old snapshot 0,
under a shared assembly returning `(field, 1, 3)`, the code yields the
vector 2 while `b - L·oldFieldValues` is 3.  This contradicts the class's
own docstring, which states the discretization uses the old values. -/
theorem explicitDiffusionTerm_rhs_uses_current_values_not_old :
    (ExplicitDiffusionTerm._buildMatrix termA varWithOld () none none none).2.2.2 =
      (termA.abstractBuildMatrix oldSnapshotA () none none none).2.2 -
        (termA.abstractBuildMatrix oldSnapshotA () none none none).2.1.mulVec
          varWithOld.value ∧
    (ExplicitDiffusionTerm._buildMatrix termA varWithOld () none none none).2.2.2 ≠
      (termA.abstractBuildMatrix oldSnapshotA () none none none).2.2 -
        (termA.abstractBuildMatrix oldSnapshotA () none none none).2.1.mulVec
          oldSnapshotA.value := by
  constructor
  · rfl
  · intro h
    have h0 := congrFun h 0
    simp [ExplicitDiffusionTerm._buildMatrix, termA, varWithOld, oldSnapshotA,
      Matrix.one_mulVec] at h0

/-- C2: the matrix returned by `ExplicitDiffusionTerm._buildMatrix` is
the freshly constructed sparse matrix sized to the field's mesh (the type
index `n` is the mesh's cell count), and that matrix is all zero, so the
explicit term contributes nothing to the coefficient matrix. -/
theorem explicitDiffusionTerm_matrix_is_zero (n : ℕ) (γ : Type)
    (self : ExplicitDiffusionTerm n γ) (var : CellVariable n) (bcs : γ)
    (dt tg dg : Option ℚ) :
    (self._buildMatrix var bcs dt tg dg).2.2.1 = SparseMatrixOfMesh var.mesh ∧
    (self._buildMatrix var bcs dt tg dg).2.2.1 = (0 : Matrix (Fin n) (Fin n) ℚ) :=
  ⟨rfl, rfl⟩

/-- C3: for a field whose old snapshot equals its current values, and a
shared assembly whose matrix and vector depend only on the field's
values, explicit assembly returns the all-zero matrix together with the
right-hand side `b_implicit - L_implicit·values`, where
`(L_implicit, b_implicit)` is the shared (implicit) assembly's output on
those values. -/
theorem explicit_assembly_old_eq_current_relation (n : ℕ) (γ : Type)
    (self : ExplicitDiffusionTerm n γ) (var : CellVariable n) (bcs : γ)
    (dt tg dg : Option ℚ)
    (hold : var.old = some var.value)
    (hext : ∀ f g : CellVariable n, f.value = g.value →
      (self.abstractBuildMatrix f bcs dt tg dg).2 =
        (self.abstractBuildMatrix g bcs dt tg dg).2) :
    (self._buildMatrix var bcs dt tg dg).2.2.1 = (0 : Matrix (Fin n) (Fin n) ℚ) ∧
    (self._buildMatrix var bcs dt tg dg).2.2.2 =
      (self.abstractBuildMatrix var bcs dt tg dg).2.2 -
        (self.abstractBuildMatrix var bcs dt tg dg).2.1.mulVec var.value := by
  refine ⟨rfl, ?_⟩
  have h2 : (self.abstractBuildMatrix
      (⟨var.value, none, var.mesh⟩ : CellVariable n) bcs dt tg dg).2 =
      (self.abstractBuildMatrix var bcs dt tg dg).2 := hext _ _ rfl
  simp only [ExplicitDiffusionTerm._buildMatrix, hold]
  rw [← h2]

/-- C3 witness: instantiation at a one-cell field with value 2 and old
snapshot 2, under the field-independent shared assembly `termA`. -/
theorem explicit_assembly_old_eq_current_relation_witness :
    (ExplicitDiffusionTerm._buildMatrix termA varOldEq () none none none).2.2.1 =
      (0 : Matrix (Fin 1) (Fin 1) ℚ) ∧
    (ExplicitDiffusionTerm._buildMatrix termA varOldEq () none none none).2.2.2 =
      (termA.abstractBuildMatrix varOldEq () none none none).2.2 -
        (termA.abstractBuildMatrix varOldEq () none none none).2.1.mulVec
          varOldEq.value :=
  explicit_assembly_old_eq_current_relation 1 Unit termA varOldEq () none none none
    rfl (fun _ _ _ => rfl)

/-- C4 counterexample: a field without an old snapshot does not behave
identically under explicit and implicit assembly.  At a one-cell field of
value 1 with no old snapshot, under a shared assembly returning
`(field, 1, 3)`, the implicit triple has matrix 1 and vector 3 while the
explicit triple has matrix 0 and vector 2. -/
theorem explicit_not_identical_to_implicit_without_old :
    (ExplicitDiffusionTerm._buildMatrix termA varNoOld () none none none).2 ≠
      termA.abstractBuildMatrix varNoOld () none none none := by
  intro h
  have h0 := congrFun (congrFun (congrArg (fun t => t.2.1) h) 0) 0
  simp [ExplicitDiffusionTerm._buildMatrix, termA, SparseMatrixOfMesh,
    Matrix.one_apply] at h0

/-- C4 amended: for a field without an old snapshot, explicit assembly
falls back to the field's current values — it invokes the shared assembly
on the field itself and returns `(field, zeroMatrix, b - L·values)`; it
thus treats the field exactly as one whose old snapshot equals its
current values, but it is not identical to implicit assembly, which
returns the shared triple unmodified. -/
theorem explicit_fallback_current_values (n : ℕ) (γ : Type)
    (self : ExplicitDiffusionTerm n γ) (var : CellVariable n) (bcs : γ)
    (dt tg dg : Option ℚ) (h : var.old = none) :
    self._buildMatrix var bcs dt tg dg =
      (self, (var, (0 : Matrix (Fin n) (Fin n) ℚ),
        (self.abstractBuildMatrix var bcs dt tg dg).2.2 -
          (self.abstractBuildMatrix var bcs dt tg dg).2.1.mulVec var.value)) := by
  simp only [ExplicitDiffusionTerm._buildMatrix, h, SparseMatrixOfMesh]

/-- C4 witness: instantiation at a one-cell field of value 1 with no old
snapshot under the shared assembly `termA`. -/
theorem explicit_fallback_current_values_witness :
    ExplicitDiffusionTerm._buildMatrix termA varNoOld () none none none =
      (termA, (varNoOld, (0 : Matrix (Fin 1) (Fin 1) ℚ),
        (termA.abstractBuildMatrix varNoOld () none none none).2.2 -
          (termA.abstractBuildMatrix varNoOld () none none none).2.1.mulVec
            varNoOld.value)) :=
  explicit_fallback_current_values 1 Unit termA varNoOld () none none none rfl

/-- C5: for a field with an old snapshot, `_buildMatrix` invokes the
shared assembly with the old snapshot (not the current field) as the
field argument, and the first component of the returned triple is the
original field argument `var`. -/
theorem explicit_invokes_assembly_on_old_snapshot (n : ℕ) (γ : Type)
    (self : ExplicitDiffusionTerm n γ) (var : CellVariable n)
    (o : Fin n → ℚ) (bcs : γ) (dt tg dg : Option ℚ)
    (h : var.old = some o) :
    self._buildMatrix var bcs dt tg dg =
      (self, (var, SparseMatrixOfMesh var.mesh,
        (self.abstractBuildMatrix (⟨o, none, var.mesh⟩ : CellVariable n)
            bcs dt tg dg).2.2 -
          (self.abstractBuildMatrix (⟨o, none, var.mesh⟩ : CellVariable n)
            bcs dt tg dg).2.1.mulVec var.value)) := by
  simp only [ExplicitDiffusionTerm._buildMatrix, h]

/-- C5 witness: instantiation at a one-cell field of value 1 with old
snapshot 0 under the shared assembly `termA`. -/
theorem explicit_invokes_assembly_on_old_snapshot_witness :
    ExplicitDiffusionTerm._buildMatrix termA varWithOld () none none none =
      (termA, (varWithOld, SparseMatrixOfMesh varWithOld.mesh,
        (termA.abstractBuildMatrix
            (⟨fun _ => 0, none, varWithOld.mesh⟩ : CellVariable 1)
            () none none none).2.2 -
          (termA.abstractBuildMatrix
              (⟨fun _ => 0, none, varWithOld.mesh⟩ : CellVariable 1)
              () none none none).2.1.mulVec varWithOld.value)) :=
  explicit_invokes_assembly_on_old_snapshot 1 Unit termA varWithOld (fun _ => 0)
    () none none none rfl

/-- C6: `_buildMatrix` does not mutate the field argument: the field in
the returned triple is the input field itself, with its current values,
old snapshot and mesh reference unchanged.  The source method only reads
`var.old`, `var.value` and `var.mesh` and performs no assignment, so its
translation is a pure function of the field. -/
theorem explicit_buildMatrix_preserves_field (n : ℕ) (γ : Type)
    (self : ExplicitDiffusionTerm n γ) (var : CellVariable n) (bcs : γ)
    (dt tg dg : Option ℚ) :
    (self._buildMatrix var bcs dt tg dg).2.1 = var ∧
    (self._buildMatrix var bcs dt tg dg).2.1.value = var.value ∧
    (self._buildMatrix var bcs dt tg dg).2.1.old = var.old ∧
    (self._buildMatrix var bcs dt tg dg).2.1.mesh = var.mesh :=
  ⟨rfl, rfl, rfl, rfl⟩

/-- C7: the term is stateless across calls: `_buildMatrix` returns the
instance unchanged, and two calls with identical inputs (same field
values, old snapshot and mesh, same boundary conditions and coefficient
arguments) return identical results. -/
theorem explicit_buildMatrix_stateless_deterministic (n : ℕ) (γ : Type)
    (self : ExplicitDiffusionTerm n γ) (f g : CellVariable n) (bcs : γ)
    (dt tg dg : Option ℚ)
    (hv : f.value = g.value) (ho : f.old = g.old) (hm : f.mesh = g.mesh) :
    self._buildMatrix f bcs dt tg dg = self._buildMatrix g bcs dt tg dg ∧
    (self._buildMatrix f bcs dt tg dg).1 = self := by
  obtain ⟨fv, fo, fm⟩ := f
  obtain ⟨gv, go, gm⟩ := g
  cases hv
  cases ho
  cases hm
  exact ⟨rfl, rfl⟩

/-- C7 witness: two calls on equal one-cell fields under the shared
assembly `termA` agree, and the instance is returned unchanged. -/
theorem explicit_buildMatrix_stateless_deterministic_witness :
    ExplicitDiffusionTerm._buildMatrix termA varWithOld () none none none =
      ExplicitDiffusionTerm._buildMatrix termA varWithOld () none none none ∧
    (ExplicitDiffusionTerm._buildMatrix termA varWithOld () none none none).1 =
      termA :=
  explicit_buildMatrix_stateless_deterministic 1 Unit termA varWithOld varWithOld
    () none none none rfl rfl rfl

/-- C9: the geometry hooks delegate directly to the mesh:
`_getNormals` returns the mesh's face cell-to-cell normals and
`_treatMeshAsOrthogonal` returns the mesh's own orthogonality flag,
both unmodified. -/
theorem explicit_geometry_hooks_delegate (n m : ℕ) (γ : Type)
    (self : ExplicitDiffusionTerm n γ) (mesh : Mesh m) :
    self._getNormals mesh = mesh._faceCellToCellNormals ∧
    self._treatMeshAsOrthogonal mesh = mesh._isOrthogonal :=
  ⟨rfl, rfl⟩

/-- A mesh with a degenerate face forces the resolver to fail, whatever
index the face scan starts at. -/
theorem resolveAndBuild_degenerate (faces : List (SpecFace n))
    (hf : ∃ f ∈ faces, f.interCellDistance = 0) (i : ℕ) :
    ∃ e, resolveAndBuild faces i = Except.error e := by
  induction faces generalizing i with
  | nil =>
    rcases hf with ⟨f, hmem, _⟩
    cases hmem
  | cons g gs ih =>
    by_cases hg : g.interCellDistance = 0
    · exact ⟨AssemblyError.degenerateGeometry i, by simp [resolveAndBuild, hg]⟩
    · rcases hf with ⟨f, hmem, hd⟩
      rcases List.mem_cons.mp hmem with h1 | h2
      · exact absurd (h1 ▸ hd) hg
      · obtain ⟨e, he⟩ := ih ⟨f, h2, hd⟩ (i + 1)
        exact ⟨e, by simp [resolveAndBuild, hg, he]⟩

/-- C8: on a mesh containing a face with zero inter-cell distance, both
the implicit and the explicit assembly fail with an error instead of
returning a matrix or vector. -/
theorem degenerate_mesh_assembly_fails (n : ℕ) (faces : List (SpecFace n))
    (var : CellVariable n)
    (h : ∃ f ∈ faces, f.interCellDistance = 0) :
    (∃ e, specImplicitAssemble faces var = Except.error e) ∧
    (∃ e, specExplicitAssemble faces var = Except.error e) := by
  obtain ⟨e, he⟩ := resolveAndBuild_degenerate faces h 0
  exact ⟨⟨e, by simp [specImplicitAssemble, he]⟩,
    ⟨e, by simp [specExplicitAssemble, he]⟩⟩

/-- A two-cell mesh. -/
def mesh2 : Mesh 2 := ⟨[], true⟩

/-- A degenerate face joining the two cells of `mesh2` with zero
inter-cell distance. -/
def degenerateFace : SpecFace 2 := ⟨0, 1, 1, 1, 0⟩

/-- A two-cell field with no old snapshot. -/
def var2 : CellVariable 2 := ⟨fun _ => 0, none, mesh2⟩

/-- C8 witness: instantiation at the one-face mesh whose single face has
zero inter-cell distance. -/
theorem degenerate_mesh_assembly_fails_witness :
    (∃ e, specImplicitAssemble [degenerateFace] var2 = Except.error e) ∧
    (∃ e, specExplicitAssemble [degenerateFace] var2 = Except.error e) :=
  degenerate_mesh_assembly_fails 2 [degenerateFace] var2
    ⟨degenerateFace, by simp, rfl⟩

/-- C10: `Matplotlib2DViewer._getSuitableVars` raises
`MeshDimensionError` exactly when the given variables contain no
`CellVariable` on a `Mesh2D` mesh; otherwise it returns the one-element
list holding the first suitable variable, discarding the rest. -/
theorem matplotlib2DViewer_getSuitableVars_spec (vars : List ViewerVariable) :
    ((∃ e, Matplotlib2DViewer._getSuitableVars vars = Except.error e) ↔
      ∀ v ∈ vars, ¬(v.isCellVariable = true ∧ v.meshIsMesh2D = true)) ∧
    (∀ v rest,
      vars.filter (fun w => w.meshIsMesh2D && w.isCellVariable) = v :: rest →
        Matplotlib2DViewer._getSuitableVars vars = Except.ok [v]) := by
  constructor
  · cases hf : vars.filter (fun w => w.meshIsMesh2D && w.isCellVariable) with
    | nil =>
      constructor
      · intro _ v hv hcontra
        have hall := List.filter_eq_nil_iff.mp hf v hv
        simp [hcontra.1, hcontra.2] at hall
      · intro _
        exact ⟨⟨"The mesh must be a Mesh2D instance"⟩,
          by simp [Matplotlib2DViewer._getSuitableVars,
            MatplotlibViewer._getSuitableVars, hf]⟩
    | cons v rest =>
      constructor
      · rintro ⟨e, he⟩
        simp [Matplotlib2DViewer._getSuitableVars,
          MatplotlibViewer._getSuitableVars, hf] at he
      · intro hall
        have hv : v ∈ vars.filter (fun w => w.meshIsMesh2D && w.isCellVariable) :=
          hf ▸ List.mem_cons_self v rest
        have hp := List.of_mem_filter hv
        have hmem := List.mem_of_mem_filter hv
        have := hall v hmem
        simp [Bool.and_eq_true] at hp
        exact absurd ⟨hp.2, hp.1⟩ this
  · intro v rest hfil
    simp [Matplotlib2DViewer._getSuitableVars,
      MatplotlibViewer._getSuitableVars, hfil]

/-- A viewer variable that is a `CellVariable` but not on a `Mesh2D`. -/
def viewerVarA : ViewerVariable := ⟨"a", true, false⟩

/-- A viewer variable that is a `CellVariable` on a `Mesh2D`. -/
def viewerVarB : ViewerVariable := ⟨"b", true, true⟩

/-- Another suitable viewer variable, to be discarded. -/
def viewerVarD : ViewerVariable := ⟨"d", true, true⟩

/-- C10 witness: with one unsuitable and two suitable variables, the
first suitable one alone is returned. -/
theorem matplotlib2DViewer_getSuitableVars_spec_witness :
    Matplotlib2DViewer._getSuitableVars [viewerVarA, viewerVarB, viewerVarD] =
      Except.ok [viewerVarB] :=
  (matplotlib2DViewer_getSuitableVars_spec [viewerVarA, viewerVarB, viewerVarD]).2
    viewerVarB [viewerVarD] (by rfl)
